import Mathlib

/-!
Shallow embedding of `src/spacex_dash_app.py` (a Dash dashboard over a CSV of
rocket-launch records) together with proofs of the specified properties of its
dataset loader, layout builder and the two reactive callbacks
(`get_pie_chart`, `get_scatter_chart`).

Modelling choices:
* A row of the pandas dataframe becomes a `LaunchRecord`; the dataframe itself
  becomes a `DataFrame` carrying its column names (so the
  `'Payload Mass (kg)' not in spacex_df.columns` guard is expressible) and its
  ordered rows.
* Payload masses and the `class` column are modelled as `Int` (the guards and
  filters only use ordering and equality, which agree with the numeric types
  pandas uses here).
* Values arriving from the range slider are modelled by `PyVal` (a number, a
  non-numeric object, or Python's None), so the
  `isinstance(low, (int, float))` guard and the `low, high = payload_range`
  unpacking are expressible.  The scatter callback returns `Option`:
  `Option.none` models an uncaught Python exception (the unpacking failing).
* A plotly figure is modelled by the data actually handed to
  `px.pie` / `px.scatter`: the list of slices (label and count) resp. the list
  of plotted rows, plus the title.  Slice order in a pie chart is a rendering
  concern, so grouping (`value_counts`, `px.pie` aggregation) is modelled in
  first-seen order of the labels.
-/

namespace SpacexDash

/-- One row of `spacex_df`: the four columns the app uses.  `cls` stands for
the Python column name `class` (1 = success, 0 = failure), which is a reserved
word in Lean. -/
structure LaunchRecord where
  payloadMass : Int
  launchSite : String
  cls : Int
  boosterVersionCategory : String
deriving DecidableEq

/-- A pandas dataframe as the app observes it: the list of column names plus
the ordered rows. -/
structure DataFrame where
  columns : List String
  rows : List LaunchRecord
deriving DecidableEq

/-- First-seen-order deduplication: the order pandas `Series.unique()` uses,
and the order in which `px.pie` meets the distinct category labels. -/
def uniqueFirst : List String → List String
  | [] => []
  | a :: l => a :: uniqueFirst (l.filter (fun b => b != a))
termination_by l => l.length
decreasing_by
  simp_wf
  exact Nat.lt_succ_of_le (List.length_filter_le _ _)

theorem mem_uniqueFirst {s : String} : ∀ {l : List String}, s ∈ uniqueFirst l ↔ s ∈ l := by
  intro l
  induction l using uniqueFirst.induct with
  | case1 => simp [uniqueFirst]
  | case2 a l ih =>
    rw [uniqueFirst]
    simp only [List.mem_cons, ih, List.mem_filter, bne_iff_ne, ne_eq]
    constructor
    · rintro (h | h)
      · exact Or.inl h
      · exact Or.inr h.1
    · rintro (h | h)
      · exact Or.inl h
      · by_cases hsa : s = a
        · exact Or.inl hsa
        · exact Or.inr ⟨h, hsa⟩

theorem nodup_uniqueFirst : ∀ (l : List String), (uniqueFirst l).Nodup := by
  intro l
  induction l using uniqueFirst.induct with
  | case1 => simp [uniqueFirst]
  | case2 a l ih =>
    rw [uniqueFirst]
    refine List.Nodup.cons ?_ ih
    intro hmem
    have := (mem_uniqueFirst.mp hmem)
    simp [List.mem_filter] at this

theorem sum_count_uniqueFirst : ∀ (l : List String),
    ((uniqueFirst l).map (fun s => l.count s)).sum = l.length := by
  intro l
  induction l using uniqueFirst.induct with
  | case1 => simp [uniqueFirst]
  | case2 a l ih =>
    rw [uniqueFirst]
    have hcongr : ∀ s ∈ uniqueFirst (l.filter (fun b => b != a)),
        (a :: l).count s = (l.filter (fun b => b != a)).count s := by
      intro s hs
      have hsl : s ∈ l.filter (fun b => b != a) := mem_uniqueFirst.mp hs
      have hne : s ≠ a := by
        have := (List.mem_filter.mp hsl).2
        simpa [bne_iff_ne] using this
      rw [List.count_cons_of_ne hne, List.count_filter]
      simp [bne_iff_ne, hne]
    calc ((a :: uniqueFirst (l.filter (fun b => b != a))).map
            (fun s => (a :: l).count s)).sum
        = (a :: l).count a
            + ((uniqueFirst (l.filter (fun b => b != a))).map
                (fun s => (a :: l).count s)).sum := by
          simp
      _ = (a :: l).count a
            + ((uniqueFirst (l.filter (fun b => b != a))).map
                (fun s => (l.filter (fun b => b != a)).count s)).sum := by
          rw [List.map_congr_left hcongr]
      _ = (l.count a + 1) + (l.filter (fun b => b != a)).length := by
          rw [ih, List.count_cons_self]
      _ = (a :: l).length := by
          have hsplit : l.length = l.countP (fun b => b == a)
              + l.countP (fun b => b != a) := by
            have := List.length_eq_countP_add_countP (p := fun b => b == a) l
            simpa [bne] using this
          have hfl : (l.filter (fun b => b != a)).length
              = l.countP (fun b => b != a) :=
            (List.countP_eq_length_filter _ _).symm
          have hca : l.count a = l.countP (fun b => b == a) := rfl
          simp [hfl, hca, List.length_cons, hsplit]
          omega

/-- Grouping a list of labels into (label, occurrence count) pairs: the data
`px.pie` derives from a `names` column, and the content of pandas
`value_counts()` (slice order is not part of the chart model). -/
def groupCounts (l : List String) : List (String × Nat) :=
  (uniqueFirst l).map (fun s => (s, l.count s))

theorem sum_groupCounts (l : List String) :
    ((groupCounts l).map Prod.snd).sum = l.length := by
  unfold groupCounts
  rw [List.map_map]
  exact sum_count_uniqueFirst l

/-- The dict-map on line 96 of the source:
`.map({1: 'Success', 0: 'Failure'})`.  A key absent from the dict maps to NaN
(`Option.none` here), which `value_counts()` then drops. -/
def mapSuccessFailure (c : Int) : Option String :=
  if c = 1 then some "Success" else if c = 0 then some "Failure" else Option.none

/-- The pie figure as handed to the renderer: slices (label, value) and the
title. -/
structure PieFigure where
  slices : List (String × Nat)
  title : String
deriving DecidableEq

/-- Embedding of `get_pie_chart` (lines 81-103 of the source). -/
def get_pie_chart (entered_site : String) (spacex_df : DataFrame) : PieFigure :=
  let filtered_df := spacex_df
  if entered_site = "ALL" then
    let successful_launches := filtered_df.rows.filter (fun r => r.cls == 1)
    { slices := groupCounts (successful_launches.map (fun r => r.launchSite)),
      title := "Total Successful Launches by Site" }
  else
    let site_filtered := filtered_df.rows.filter (fun r => r.launchSite == entered_site)
    let status_counts := groupCounts (site_filtered.filterMap (fun r => mapSuccessFailure r.cls))
    { slices := status_counts,
      title := "Successful vs. Failed Launches for site " ++ entered_site }

/-- A Python value as delivered by the range slider: a number, some other
object (e.g. a string), or None.  `isinstance(x, (int, float))` holds exactly
for `num`. -/
inductive PyVal where
  | num (x : Int)
  | str (s : String)
  | none
deriving DecidableEq

/-- `isinstance(x, (int, float))` from line 120 of the source. -/
def PyVal.isNum : PyVal → Bool
  | .num _ => true
  | _ => false

/-- The scatter figure as handed to the renderer: the plotted rows
(x = payload mass, y = outcome class, color = booster version category) and
the title. -/
structure ScatterFigure where
  points : List LaunchRecord
  title : String
deriving DecidableEq

/-- Embedding of `get_scatter_chart` (lines 111-143 of the source).
`payload_range` is the slider value; `low, high = payload_range` raises
(modelled as `Option.none`) unless it has exactly two elements.  The missing
column guard (line 115) runs next, then the `isinstance` guard (line 120)
falls back to the full dataframe (`spacex_df.copy()`) when a bound is not
numeric. -/
def get_scatter_chart (entered_site : String) (payload_range : List PyVal)
    (spacex_df : DataFrame) : Option ScatterFigure :=
  match payload_range with
  | [low, high] =>
    if "Payload Mass (kg)" ∉ spacex_df.columns then
      some { points := [], title := "Payload Mass (kg) column missing" }
    else
      let current_filtered_df : List LaunchRecord :=
        match low, high with
        | .num lo, .num hi =>
          spacex_df.rows.filter (fun r => decide (lo ≤ r.payloadMass ∧ r.payloadMass ≤ hi))
        | _, _ => spacex_df.rows
      if entered_site = "ALL" then
        some { points := current_filtered_df,
               title := "Payload vs. Launch Outcome for All Sites" }
      else
        some { points := current_filtered_df.filter (fun r => r.launchSite == entered_site),
               title := "Payload vs. Launch Outcome for site " ++ entered_site }
  | _ => Option.none

/-- The placeholder dataframe built in the `except FileNotFoundError` branch
(lines 17-22 of the source). -/
def fallback_spacex_df : DataFrame :=
  { columns := ["Payload Mass (kg)", "Launch Site", "class", "Booster Version Category"],
    rows := [{ payloadMass := 0, launchSite := "Default", cls := 0,
               boosterVersionCategory := "Default" }] }

/-- Embedding of the module-level `try: spacex_df = pd.read_csv(...) except
FileNotFoundError: ...` (lines 12-22).  The argument is the outcome of
`pd.read_csv`: `some df` on success, `Option.none` for FileNotFoundError.
The second component collects the diagnostics printed to the operator (the
source wraps the file name in single quotes in the message). -/
def load_spacex_df (readResult : Option DataFrame) : DataFrame × List String :=
  match readResult with
  | some df => (df, [])
  | Option.none =>
    (fallback_spacex_df,
     ["Error: spacex_launch_dash.csv not found. Please ensure the file is in the correct directory."])

/-- pandas `Series.min()`: NaN (here `Option.none`) on an empty series. -/
def series_min : List Int → Option Int
  | [] => Option.none
  | a :: l =>
    match series_min l with
    | Option.none => some a
    | some b => some (min a b)

/-- pandas `Series.max()`: NaN (here `Option.none`) on an empty series. -/
def series_max : List Int → Option Int
  | [] => Option.none
  | a :: l =>
    match series_max l with
    | Option.none => some a
    | some b => some (max a b)

/-- One `{'label': ..., 'value': ...}` entry of the site dropdown. -/
structure DropdownOption where
  label : String
  value : String
deriving DecidableEq

/-- The parts of `app.layout` (lines 31-74 of the source) that carry data:
the site dropdown options and default, and the payload range slider
configuration. -/
structure AppLayout where
  dropdown_options : List DropdownOption
  dropdown_value : String
  slider_min : Int
  slider_max : Int
  slider_step : Int
  slider_marks : List Int
  slider_value : List Int
deriving DecidableEq

/-- Embedding of the layout construction: `max_payload` / `min_payload`
(lines 24-25) and `app.layout` (lines 31-74).  `marks` keeps the keys of
`{i: str(i) for i in range(0, 10001, 1000)}`; the slider `value` is
`[min_payload if pd.notna(min_payload) else 0,
  max_payload if pd.notna(max_payload) else 10000]`. -/
def app_layout (spacex_df : DataFrame) : AppLayout :=
  let max_payload := series_max (spacex_df.rows.map (fun r => r.payloadMass))
  let min_payload := series_min (spacex_df.rows.map (fun r => r.payloadMass))
  { dropdown_options :=
      { label := "All Sites", value := "ALL" } ::
        (uniqueFirst (spacex_df.rows.map (fun r => r.launchSite))).map
          (fun site => { label := site, value := site }),
    dropdown_value := "ALL",
    slider_min := 0,
    slider_max := 10000,
    slider_step := 1000,
    slider_marks := (List.range 11).map (fun i => (i : Int) * 1000),
    slider_value := [min_payload.getD 0, max_payload.getD 10000] }

/-- State-passing form of the pie callback: the module-level `spacex_df` is
threaded through explicitly.  Every dataframe operation in the body
(boolean-mask selection, `Series.map`, `value_counts`, `reset_index`)
allocates a fresh frame; the single in-place assignment
(`status_counts.columns = ...`, line 97) targets the local `status_counts`
frame, so the global frame is handed back unchanged. -/
def get_pie_chart_st (entered_site : String) (spacex_df : DataFrame) :
    DataFrame × PieFigure :=
  (spacex_df, get_pie_chart entered_site spacex_df)

/-- State-passing form of the scatter callback: boolean-mask selection and
`.copy()` allocate fresh frames, so the global frame is handed back
unchanged. -/
def get_scatter_chart_st (entered_site : String) (payload_range : List PyVal)
    (spacex_df : DataFrame) : DataFrame × Option ScatterFigure :=
  (spacex_df, get_scatter_chart entered_site payload_range spacex_df)

/-- The three-row dataset used as a worked example in the specification. -/
def sample_df : DataFrame :=
  { columns := ["Payload Mass (kg)", "Launch Site", "class", "Booster Version Category"],
    rows := [{ payloadMass := 500, launchSite := "A", cls := 1, boosterVersionCategory := "B1" },
             { payloadMass := 500, launchSite := "A", cls := 0, boosterVersionCategory := "B2" },
             { payloadMass := 9000, launchSite := "B", cls := 1, boosterVersionCategory := "B1" }] }

/-- A dataframe whose column list lacks `Payload Mass (kg)`, for exercising
the missing-column guard. -/
def no_payload_column_df : DataFrame :=
  { columns := ["Launch Site", "class", "Booster Version Category"],
    rows := sample_df.rows }

/-! ### Supporting lemmas -/

theorem groupCounts_fst (l : List String) :
    (groupCounts l).map Prod.fst = uniqueFirst l := by
  unfold groupCounts
  rw [List.map_map]
  exact List.map_id _

theorem mem_groupCounts {l : List String} {p : String × Nat} (hp : p ∈ groupCounts l) :
    p.1 ∈ uniqueFirst l ∧ p.2 = l.count p.1 := by
  unfold groupCounts at hp
  obtain ⟨s, hs, hps⟩ := List.mem_map.mp hp
  rw [← hps]
  exact ⟨hs, rfl⟩

theorem length_filterMap_of_isSome {α β : Type} (f : α → Option β) :
    ∀ (l : List α), (∀ a ∈ l, (f a).isSome) → (l.filterMap f).length = l.length := by
  intro l h
  induction l with
  | nil => rfl
  | cons a l ih =>
    obtain ⟨b, hb⟩ := Option.isSome_iff_exists.mp (h a (List.mem_cons_self a l))
    rw [List.filterMap_cons, hb]
    simp only [List.length_cons]
    rw [ih (fun x hx => h x (List.mem_cons_of_mem _ hx))]

theorem mapSuccessFailure_eq_success_iff (c : Int) :
    mapSuccessFailure c = some "Success" ↔ c = 1 := by
  unfold mapSuccessFailure
  by_cases h1 : c = 1
  · simp [h1]
  · by_cases h0 : c = 0
    · subst h0
      simp only [if_neg h1, if_pos rfl]
      constructor
      · intro h
        exact absurd (Option.some.inj h) (by decide)
      · intro h
        exact absurd h h1
    · simp [h1, h0]

theorem mapSuccessFailure_eq_failure_iff (c : Int) :
    mapSuccessFailure c = some "Failure" ↔ c = 0 := by
  unfold mapSuccessFailure
  by_cases h1 : c = 1
  · subst h1
    simp only [if_pos rfl]
    constructor
    · intro h
      exact absurd (Option.some.inj h) (by decide)
    · intro h
      exact absurd h (by decide)
  · by_cases h0 : c = 0 <;> simp [h1, h0]

theorem mapSuccessFailure_mem_cases {c : Int} {x : String}
    (h : mapSuccessFailure c = some x) : x = "Success" ∨ x = "Failure" := by
  unfold mapSuccessFailure at h
  by_cases h1 : c = 1
  · rw [if_pos h1] at h
    exact Or.inl (Option.some.inj h).symm
  · rw [if_neg h1] at h
    by_cases h0 : c = 0
    · rw [if_pos h0] at h
      exact Or.inr (Option.some.inj h).symm
    · rw [if_neg h0] at h
      exact absurd h (by simp)

theorem mapSuccessFailure_isSome {c : Int} (h : c = 0 ∨ c = 1) :
    (mapSuccessFailure c).isSome := by
  rcases h with h | h <;> simp [mapSuccessFailure, h]

theorem count_map_site (l : List LaunchRecord) (s : String) :
    (l.map (fun r => r.launchSite)).count s
      = l.countP (fun r => r.launchSite == s) := by
  rw [List.count_eq_countP, List.countP_map]
  rfl

/-! ### C1: pie chart for the ALL-sites view -/

/-- C1: with selected site `ALL`, `get_pie_chart` keeps exactly the rows with
outcome class 1, groups them by launch site (one slice per distinct site of a
successful row, labels without repetition), sizes each slice by that site's
successful-launch count, sums to the total number of rows with class 1, and
is titled `Total Successful Launches by Site`. -/
theorem pie_all_counts_successes_by_site (df : DataFrame) :
    ((get_pie_chart "ALL" df).slices.map Prod.fst).Nodup ∧
    (∀ s : String, s ∈ (get_pie_chart "ALL" df).slices.map Prod.fst ↔
      s ∈ (df.rows.filter (fun r => r.cls == 1)).map (fun r => r.launchSite)) ∧
    (∀ p ∈ (get_pie_chart "ALL" df).slices,
      p.2 = (df.rows.filter (fun r => r.launchSite == p.1 && r.cls == 1)).length) ∧
    ((get_pie_chart "ALL" df).slices.map Prod.snd).sum
      = (df.rows.filter (fun r => r.cls == 1)).length ∧
    (get_pie_chart "ALL" df).title = "Total Successful Launches by Site" := by
  have hpie : get_pie_chart "ALL" df =
      { slices := groupCounts
          ((df.rows.filter (fun r => r.cls == 1)).map (fun r => r.launchSite)),
        title := "Total Successful Launches by Site" } := rfl
  rw [hpie]
  refine ⟨?_, ?_, ?_, ?_, rfl⟩
  · rw [groupCounts_fst]
    exact nodup_uniqueFirst _
  · intro s
    rw [groupCounts_fst]
    exact mem_uniqueFirst
  · intro p hp
    have h := (mem_groupCounts hp).2
    rw [h, count_map_site, List.countP_eq_length_filter, List.filter_filter]
  · rw [sum_groupCounts, List.length_map]

/-- Closed instance of C1 on the specification's worked example: the slice
values of the ALL-sites pie sum to the example's two successful rows. -/
theorem pie_all_counts_successes_by_site_witness :
    ((get_pie_chart "ALL" sample_df).slices.map Prod.snd).sum = 2 :=
  ((pie_all_counts_successes_by_site sample_df).2.2.2.1).trans (by decide)

/-! ### C2: pie chart for a single selected site -/

/-- C2: with a selected site `S ≠ "ALL"` and outcome classes drawn from
{0, 1}, `get_pie_chart` keeps exactly the rows whose launch site is `S`;
every slice label is `Success` or `Failure` (class 1 resp. class 0), a label
present has the matching class count and is strictly positive (a zero-row
category is absent, not zero-valued), the slice values sum to the number of
rows at site `S`, and a site matching no rows yields an empty, sliceless
chart rather than an error. -/
theorem pie_site_success_failure (df : DataFrame) (S : String) (hS : S ≠ "ALL")
    (hcls : ∀ r ∈ df.rows, r.cls = 0 ∨ r.cls = 1) :
    (∀ p ∈ (get_pie_chart S df).slices, p.1 = "Success" ∨ p.1 = "Failure") ∧
    (∀ p ∈ (get_pie_chart S df).slices,
      (p.1 = "Success" →
        p.2 = (df.rows.filter (fun r => r.cls == 1 && r.launchSite == S)).length) ∧
      (p.1 = "Failure" →
        p.2 = (df.rows.filter (fun r => r.cls == 0 && r.launchSite == S)).length) ∧
      0 < p.2) ∧
    ((get_pie_chart S df).slices.map Prod.snd).sum
      = (df.rows.filter (fun r => r.launchSite == S)).length ∧
    (df.rows.filter (fun r => r.launchSite == S) = [] →
      (get_pie_chart S df).slices = []) := by
  have hpie : (get_pie_chart S df).slices =
      groupCounts ((df.rows.filter (fun r => r.launchSite == S)).filterMap
        (fun r => mapSuccessFailure r.cls)) := by
    unfold get_pie_chart
    rw [if_neg hS]
  rw [hpie]
  refine ⟨?_, ?_, ?_, ?_⟩
  · intro p hp
    have hmem := mem_uniqueFirst.mp (mem_groupCounts hp).1
    obtain ⟨r, _, hr⟩ := List.mem_filterMap.mp hmem
    exact mapSuccessFailure_mem_cases hr
  · intro p hp
    obtain ⟨hmemU, hcount⟩ := mem_groupCounts hp
    have hmem := mem_uniqueFirst.mp hmemU
    refine ⟨?_, ?_, ?_⟩
    · intro hsucc
      rw [hcount, List.count_filterMap, hsucc]
      rw [List.countP_congr (q := fun r => r.cls == 1) ?_]
      · rw [List.countP_eq_length_filter, List.filter_filter]
      · intro r _
        simp only [beq_iff_eq]
        exact mapSuccessFailure_eq_success_iff r.cls
    · intro hfail
      rw [hcount, List.count_filterMap, hfail]
      rw [List.countP_congr (q := fun r => r.cls == 0) ?_]
      · rw [List.countP_eq_length_filter, List.filter_filter]
      · intro r _
        simp only [beq_iff_eq]
        exact mapSuccessFailure_eq_failure_iff r.cls
    · rw [hcount]
      exact List.count_pos_iff.mpr hmem
  · rw [sum_groupCounts]
    refine length_filterMap_of_isSome _ _ ?_
    intro r hr
    exact mapSuccessFailure_isSome (hcls r (List.mem_filter.mp hr).1)
  · intro hempty
    rw [hempty]
    simp [groupCounts, uniqueFirst]

/-- Closed instance of C2 on the worked example: for site `A` the slice
values sum to the number of rows launched from `A`. -/
theorem pie_site_success_failure_witness :
    ((get_pie_chart "A" sample_df).slices.map Prod.snd).sum
      = (sample_df.rows.filter (fun r => r.launchSite == "A")).length :=
  (pie_site_success_failure sample_df "A" (by decide) (by decide)).2.2.1

/-! ### Evaluation lemmas for the scatter callback -/

theorem get_scatter_chart_cons_cons (S : String) (low high : PyVal) (df : DataFrame) :
    get_scatter_chart S [low, high] df =
      if "Payload Mass (kg)" ∉ df.columns then
        some { points := [], title := "Payload Mass (kg) column missing" }
      else if S = "ALL" then
        some { points :=
                 (match low, high with
                  | PyVal.num lo, PyVal.num hi =>
                    df.rows.filter (fun r => decide (lo ≤ r.payloadMass ∧ r.payloadMass ≤ hi))
                  | _, _ => df.rows),
               title := "Payload vs. Launch Outcome for All Sites" }
      else
        some { points :=
                 ((match low, high with
                   | PyVal.num lo, PyVal.num hi =>
                     df.rows.filter (fun r => decide (lo ≤ r.payloadMass ∧ r.payloadMass ≤ hi))
                   | _, _ => df.rows : List LaunchRecord)).filter (fun r => r.launchSite == S),
               title := "Payload vs. Launch Outcome for site " ++ S } := rfl

theorem get_scatter_chart_missing_col (S : String) (low high : PyVal) (df : DataFrame)
    (hcol : "Payload Mass (kg)" ∉ df.columns) :
    get_scatter_chart S [low, high] df
      = some { points := [], title := "Payload Mass (kg) column missing" } := by
  rw [get_scatter_chart_cons_cons, if_pos hcol]

theorem get_scatter_chart_num (S : String) (lo hi : Int) (df : DataFrame)
    (hcol : "Payload Mass (kg)" ∈ df.columns) :
    get_scatter_chart S [PyVal.num lo, PyVal.num hi] df =
      if S = "ALL" then
        some { points := df.rows.filter (fun r => decide (lo ≤ r.payloadMass ∧ r.payloadMass ≤ hi)),
               title := "Payload vs. Launch Outcome for All Sites" }
      else
        some { points := (df.rows.filter
                 (fun r => decide (lo ≤ r.payloadMass ∧ r.payloadMass ≤ hi))).filter
                 (fun r => r.launchSite == S),
               title := "Payload vs. Launch Outcome for site " ++ S } := by
  rw [get_scatter_chart_cons_cons, if_neg (not_not_intro hcol)]

theorem get_scatter_chart_nonnum (S : String) (low high : PyVal) (df : DataFrame)
    (hcol : "Payload Mass (kg)" ∈ df.columns)
    (hbad : low.isNum = false ∨ high.isNum = false) :
    get_scatter_chart S [low, high] df =
      if S = "ALL" then
        some { points := df.rows, title := "Payload vs. Launch Outcome for All Sites" }
      else
        some { points := df.rows.filter (fun r => r.launchSite == S),
               title := "Payload vs. Launch Outcome for site " ++ S } := by
  rw [get_scatter_chart_cons_cons, if_neg (not_not_intro hcol)]
  cases low <;> cases high <;> first
    | rfl
    | (rcases hbad with h | h <;> simp [PyVal.isNum] at h)

/-! ### C3: inclusive payload-interval filtering -/

/-- C3: with a numeric interval `[lo, hi]`, `lo ≤ hi`, every point the scatter
callback plots has payload mass between `lo` and `hi`, and both bounds are
inclusive: in the ALL-sites view any dataset row whose payload equals a bound
(or lies between them) is retained. -/
theorem scatter_interval_inclusive (df : DataFrame) (S : String) (lo hi : Int)
    (_hlohi : lo ≤ hi) :
    (∀ c, get_scatter_chart S [PyVal.num lo, PyVal.num hi] df = some c →
      ∀ r ∈ c.points, lo ≤ r.payloadMass ∧ r.payloadMass ≤ hi) ∧
    ("Payload Mass (kg)" ∈ df.columns →
      ∀ c, get_scatter_chart "ALL" [PyVal.num lo, PyVal.num hi] df = some c →
        ∀ r ∈ df.rows, lo ≤ r.payloadMass → r.payloadMass ≤ hi → r ∈ c.points) := by
  constructor
  · intro c hc r hr
    by_cases hcol : "Payload Mass (kg)" ∈ df.columns
    · rw [get_scatter_chart_num S lo hi df hcol] at hc
      by_cases hS : S = "ALL"
      · rw [if_pos hS] at hc
        obtain rfl := (Option.some.inj hc)
        exact of_decide_eq_true (List.mem_filter.mp hr).2
      · rw [if_neg hS] at hc
        obtain rfl := (Option.some.inj hc)
        exact of_decide_eq_true (List.mem_filter.mp (List.mem_filter.mp hr).1).2
    · rw [get_scatter_chart_missing_col S _ _ df hcol] at hc
      obtain rfl := (Option.some.inj hc)
      exact absurd hr (List.not_mem_nil r)
  · intro hcol c hc r hr hlo hhi
    rw [get_scatter_chart_num "ALL" lo hi df hcol, if_pos rfl] at hc
    obtain rfl := (Option.some.inj hc)
    exact List.mem_filter.mpr ⟨hr, decide_eq_true ⟨hlo, hhi⟩⟩

/-- Closed instance of C3 on the worked example: the first example row, which
the interval `[0, 1000]` retains, satisfies both inclusive bounds. -/
theorem scatter_interval_inclusive_witness :
    (0 : Int) ≤ ({ payloadMass := 500, launchSite := "A", cls := 1, boosterVersionCategory := "B1" } : LaunchRecord).payloadMass ∧
    ({ payloadMass := 500, launchSite := "A", cls := 1, boosterVersionCategory := "B1" } : LaunchRecord).payloadMass ≤ 1000 :=
  (scatter_interval_inclusive sample_df "ALL" 0 1000 (by decide)).1
    { points := [{ payloadMass := 500, launchSite := "A", cls := 1, boosterVersionCategory := "B1" },
                 { payloadMass := 500, launchSite := "A", cls := 0, boosterVersionCategory := "B2" }],
      title := "Payload vs. Launch Outcome for All Sites" }
    (by decide)
    { payloadMass := 500, launchSite := "A", cls := 1, boosterVersionCategory := "B1" }
    (by decide)

/-! ### C4: single-site scatter refines the ALL-sites scatter -/

/-- C4: for a site `S ≠ "ALL"` the scatter callback's points are exactly the
ALL-sites points (same interval, same dataset) restricted to launch site `S`,
and the ALL-sites call applies no site restriction: when the payload column
exists its points are the interval-filtered rows with no site condition. -/
theorem scatter_site_refines_all (df : DataFrame) (lo hi : Int) (S : String)
    (hS : S ≠ "ALL") :
    ∃ cAll cS,
      get_scatter_chart "ALL" [PyVal.num lo, PyVal.num hi] df = some cAll ∧
      get_scatter_chart S [PyVal.num lo, PyVal.num hi] df = some cS ∧
      cS.points = cAll.points.filter (fun r => r.launchSite == S) ∧
      ("Payload Mass (kg)" ∈ df.columns →
        cAll.points = df.rows.filter
          (fun r => decide (lo ≤ r.payloadMass ∧ r.payloadMass ≤ hi))) := by
  by_cases hcol : "Payload Mass (kg)" ∈ df.columns
  · refine ⟨{ points := df.rows.filter (fun r => decide (lo ≤ r.payloadMass ∧ r.payloadMass ≤ hi)),
              title := "Payload vs. Launch Outcome for All Sites" },
            { points := (df.rows.filter (fun r => decide (lo ≤ r.payloadMass ∧ r.payloadMass ≤ hi))).filter (fun r => r.launchSite == S),
              title := "Payload vs. Launch Outcome for site " ++ S },
            ?_, ?_, rfl, fun _ => rfl⟩
    · rw [get_scatter_chart_num "ALL" lo hi df hcol, if_pos rfl]
    · rw [get_scatter_chart_num S lo hi df hcol, if_neg hS]
  · exact ⟨{ points := [], title := "Payload Mass (kg) column missing" },
           { points := [], title := "Payload Mass (kg) column missing" },
           get_scatter_chart_missing_col "ALL" _ _ df hcol,
           get_scatter_chart_missing_col S _ _ df hcol, rfl, fun h => absurd h hcol⟩

/-- Closed instance of C4 on the worked example, for site `A` over the
interval `[0, 1000]`. -/
theorem scatter_site_refines_all_witness :
    ∃ cAll cS,
      get_scatter_chart "ALL" [PyVal.num 0, PyVal.num 1000] sample_df = some cAll ∧
      get_scatter_chart "A" [PyVal.num 0, PyVal.num 1000] sample_df = some cS ∧
      cS.points = cAll.points.filter (fun r => r.launchSite == "A") ∧
      ("Payload Mass (kg)" ∈ sample_df.columns →
        cAll.points = sample_df.rows.filter
          (fun r => decide ((0 : Int) ≤ r.payloadMass ∧ r.payloadMass ≤ 1000))) :=
  scatter_site_refines_all sample_df 0 1000 "A" (by decide)

/-! ### C5: dataset loader fallback on a missing file -/

/-- C5: when `pd.read_csv` raises FileNotFoundError the loader does not
propagate the failure: it emits one diagnostic line and substitutes the
single-row placeholder dataframe with exactly the four expected columns,
site `Default`, booster category `Default`, payload 0 and outcome class 0. -/
theorem loader_missing_file_placeholder :
    (load_spacex_df Option.none).1.columns
      = ["Payload Mass (kg)", "Launch Site", "class", "Booster Version Category"] ∧
    (load_spacex_df Option.none).1.rows
      = [{ payloadMass := 0, launchSite := "Default", cls := 0,
           boosterVersionCategory := "Default" }] ∧
    (load_spacex_df Option.none).2.length = 1 :=
  ⟨rfl, rfl, rfl⟩

/-! ### C6: malformed interval falls back to the unfiltered dataset -/

/-- C6: when the payload column is present (as it is for every dataframe the
loader can produce) and either bound of the interval is not a number, the
scatter callback does not fail: it skips the interval filter and plots the
full dataset, with only the usual site restriction applied. -/
theorem scatter_malformed_range_uses_full_dataset (df : DataFrame) (S : String)
    (low high : PyVal) (hcol : "Payload Mass (kg)" ∈ df.columns)
    (hbad : low.isNum = false ∨ high.isNum = false) :
    ∃ c, get_scatter_chart S [low, high] df = some c ∧
      c.points = (if S = "ALL" then df.rows
                  else df.rows.filter (fun r => r.launchSite == S)) := by
  by_cases hS : S = "ALL"
  · exact ⟨{ points := df.rows, title := "Payload vs. Launch Outcome for All Sites" },
      by rw [get_scatter_chart_nonnum S low high df hcol hbad, if_pos hS],
      by rw [if_pos hS]⟩
  · exact ⟨{ points := df.rows.filter (fun r => r.launchSite == S),
             title := "Payload vs. Launch Outcome for site " ++ S },
      by rw [get_scatter_chart_nonnum S low high df hcol hbad, if_neg hS],
      by rw [if_neg hS]⟩

/-- Closed instance of C6: a None lower bound on the worked example with
site `A` yields the full dataset restricted only by site. -/
theorem scatter_malformed_range_uses_full_dataset_witness :
    ∃ c, get_scatter_chart "A" [PyVal.none, PyVal.num 1000] sample_df = some c ∧
      c.points = (if "A" = "ALL" then sample_df.rows
                  else sample_df.rows.filter (fun r => r.launchSite == "A")) :=
  scatter_malformed_range_uses_full_dataset sample_df "A" PyVal.none (PyVal.num 1000)
    (by decide) (Or.inl rfl)

/-! ### C7: missing payload column yields a labelled empty chart -/

/-- C7: whenever the dataframe lacks the `Payload Mass (kg)` column, the
scatter callback returns the empty chart titled for the missing column —
independent of the selected site and of the interval bounds, with no interval
or site filtering performed. -/
theorem scatter_missing_column_empty_chart (df : DataFrame) (S : String)
    (low high : PyVal) (hcol : "Payload Mass (kg)" ∉ df.columns) :
    get_scatter_chart S [low, high] df
      = some { points := [], title := "Payload Mass (kg) column missing" } :=
  get_scatter_chart_missing_col S low high df hcol

/-- Closed instance of C7 on a dataframe whose column list lacks the payload
column. -/
theorem scatter_missing_column_empty_chart_witness :
    get_scatter_chart "A" [PyVal.num 0, PyVal.num 1000] no_payload_column_df
      = some { points := [], title := "Payload Mass (kg) column missing" } :=
  scatter_missing_column_empty_chart no_payload_column_df "A"
    (PyVal.num 0) (PyVal.num 1000) (by decide)

/-! ### C9: the callbacks never mutate the shared dataset -/

/-- C9: in state-passing form both callbacks hand the module-level dataframe
back unchanged for every input: they only build filtered copies and chart
descriptions. -/
theorem callbacks_leave_dataset_unchanged (S : String) (payload_range : List PyVal)
    (df : DataFrame) :
    (get_pie_chart_st S df).1 = df ∧
    (get_scatter_chart_st S payload_range df).1 = df :=
  ⟨rfl, rfl⟩

/-! ### C10: the interval is unpacked before any guard runs -/

/-- C10: the scatter callback unpacks `payload_range` into `low, high` before
either guard: every two-element argument produces a chart description without
raising (whatever the elements are), while any argument that is not a
two-element sequence raises at the unpacking itself and never reaches the
non-numeric fallback. -/
theorem scatter_unpacks_range_before_guards :
    (∀ (df : DataFrame) (S : String) (low high : PyVal),
      (get_scatter_chart S [low, high] df).isSome = true) ∧
    (∀ (df : DataFrame) (S : String) (payload_range : List PyVal),
      payload_range.length ≠ 2 →
      get_scatter_chart S payload_range df = Option.none) := by
  constructor
  · intro df S low high
    rw [get_scatter_chart_cons_cons]
    by_cases hcol : "Payload Mass (kg)" ∉ df.columns
    · rw [if_pos hcol]
      rfl
    · rw [if_neg hcol]
      by_cases hS : S = "ALL"
      · rw [if_pos hS]
        rfl
      · rw [if_neg hS]
        rfl
  · intro df S payload_range h
    match payload_range with
    | [] => rfl
    | [a] => rfl
    | [a, b] => exact absurd rfl h
    | a :: b :: c :: t => rfl

/-- Closed instance of C10: a two-element range of non-numbers yields a chart,
while the empty range (unpacking failure) yields the exception value. -/
theorem scatter_unpacks_range_before_guards_witness :
    (get_scatter_chart "ALL" [PyVal.str "x", PyVal.none] sample_df).isSome = true ∧
    get_scatter_chart "ALL" [] sample_df = Option.none :=
  ⟨scatter_unpacks_range_before_guards.1 sample_df "ALL" (PyVal.str "x") PyVal.none,
   scatter_unpacks_range_before_guards.2 sample_df "ALL" [] (by decide)⟩

/-! ### C8: the static layout -/

theorem series_min_spec : ∀ (l : List Int), l ≠ [] →
    ∃ a, series_min l = some a ∧ a ∈ l ∧ ∀ x ∈ l, a ≤ x := by
  intro l
  induction l with
  | nil => intro h; exact absurd rfl h
  | cons b l ih =>
    intro _
    by_cases hl : l = []
    · subst hl
      refine ⟨b, rfl, List.mem_singleton_self b, ?_⟩
      intro x hx
      rw [List.mem_singleton.mp hx]
    · obtain ⟨a, ha, hmem, hle⟩ := ih hl
      refine ⟨min b a, ?_, ?_, ?_⟩
      · simp only [series_min, ha]
      · rcases min_choice b a with h | h
        · rw [h]; exact List.mem_cons_self b l
        · rw [h]; exact List.mem_cons_of_mem b hmem
      · intro x hx
        rcases List.mem_cons.mp hx with h | h
        · rw [h]; exact min_le_left b a
        · exact le_trans (min_le_right b a) (hle x h)

theorem series_max_spec : ∀ (l : List Int), l ≠ [] →
    ∃ a, series_max l = some a ∧ a ∈ l ∧ ∀ x ∈ l, x ≤ a := by
  intro l
  induction l with
  | nil => intro h; exact absurd rfl h
  | cons b l ih =>
    intro _
    by_cases hl : l = []
    · subst hl
      refine ⟨b, rfl, List.mem_singleton_self b, ?_⟩
      intro x hx
      rw [List.mem_singleton.mp hx]
    · obtain ⟨a, ha, hmem, hle⟩ := ih hl
      refine ⟨max b a, ?_, ?_, ?_⟩
      · simp only [series_max, ha]
      · rcases max_choice b a with h | h
        · rw [h]; exact List.mem_cons_self b l
        · rw [h]; exact List.mem_cons_of_mem b hmem
      · intro x hx
        rcases List.mem_cons.mp hx with h | h
        · rw [h]; exact le_max_left b a
        · exact le_trans (hle x h) (le_max_right b a)

/-- C8: the layout's site selector offers `ALL` followed by the dataset's
distinct launch sites in first-seen order and defaults to `ALL`; the payload
slider's domain is fixed at 0-10000 with step 1000 and a tick mark every
1000 whatever the dataset, while its initial selected interval is the
dataset's payload min and max, falling back to `[0, 10000]` when those are
undefined (empty dataset). -/
theorem layout_sites_and_slider (df : DataFrame) :
    (app_layout df).dropdown_options.map DropdownOption.value
      = "ALL" :: uniqueFirst (df.rows.map (fun r => r.launchSite)) ∧
    (uniqueFirst (df.rows.map (fun r => r.launchSite))).Nodup ∧
    (∀ s : String, s ∈ uniqueFirst (df.rows.map (fun r => r.launchSite)) ↔
      s ∈ df.rows.map (fun r => r.launchSite)) ∧
    (app_layout df).dropdown_value = "ALL" ∧
    (app_layout df).slider_min = 0 ∧
    (app_layout df).slider_max = 10000 ∧
    (app_layout df).slider_step = 1000 ∧
    (app_layout df).slider_marks
      = [0, 1000, 2000, 3000, 4000, 5000, 6000, 7000, 8000, 9000, 10000] ∧
    (df.rows = [] → (app_layout df).slider_value = [0, 10000]) ∧
    (df.rows ≠ [] →
      ∃ a b, (app_layout df).slider_value = [a, b] ∧
        a ∈ df.rows.map (fun r => r.payloadMass) ∧
        b ∈ df.rows.map (fun r => r.payloadMass) ∧
        ∀ x ∈ df.rows.map (fun r => r.payloadMass), a ≤ x ∧ x ≤ b) := by
  refine ⟨?_, nodup_uniqueFirst _, fun s => mem_uniqueFirst, rfl, rfl, rfl, rfl,
    rfl, ?_, ?_⟩
  · show (({ label := "All Sites", value := "ALL" } : DropdownOption) ::
        (uniqueFirst (df.rows.map (fun r => r.launchSite))).map
          (fun site => { label := site, value := site })).map DropdownOption.value
      = "ALL" :: uniqueFirst (df.rows.map (fun r => r.launchSite))
    rw [List.map_cons, List.map_map]
    exact congrArg (List.cons "ALL") (List.map_id _)
  · intro h
    show [(series_min (df.rows.map (fun r => r.payloadMass))).getD 0,
          (series_max (df.rows.map (fun r => r.payloadMass))).getD 10000] = [0, 10000]
    rw [h]
    rfl
  · intro h
    have hp : df.rows.map (fun r => r.payloadMass) ≠ [] := by
      intro hc
      exact h (List.map_eq_nil_iff.mp hc)
    obtain ⟨a, ha, hamem, hale⟩ := series_min_spec _ hp
    obtain ⟨b, hb, hbmem, hble⟩ := series_max_spec _ hp
    refine ⟨a, b, ?_, hamem, hbmem, fun x hx => ⟨hale x hx, hble x hx⟩⟩
    show [(series_min (df.rows.map (fun r => r.payloadMass))).getD 0,
          (series_max (df.rows.map (fun r => r.payloadMass))).getD 10000] = [a, b]
    rw [ha, hb]
    rfl

/-- Closed instance of C8 on the worked example: the slider's initial
interval is the example's payload min and max. -/
theorem layout_sites_and_slider_witness :
    ∃ a b, (app_layout sample_df).slider_value = [a, b] ∧
      a ∈ sample_df.rows.map (fun r => r.payloadMass) ∧
      b ∈ sample_df.rows.map (fun r => r.payloadMass) ∧
      ∀ x ∈ sample_df.rows.map (fun r => r.payloadMass), a ≤ x ∧ x ≤ b :=
  (layout_sites_and_slider sample_df).2.2.2.2.2.2.2.2.2 (by decide)

end SpacexDash
